import Mathlib

/-!
Verification of the concurrent file-conversion driver of `ffmpeg_converter`
(`src/main.rs`) against its natural-language specification.

The Rust program is shallowly embedded: paths are a directory plus a file
name (a list of characters); the external world (process spawning, file
removal, path canonicalization, relative-path computation) is an oracle
record of pure functions; every effectful operation additionally returns the
list of filesystem actions it attempted and the console lines it printed.
The two `AtomicU16` counters are naturals incremented modulo 2 ^ 16.
-/

namespace FfmpegConverter

/-- Character lists stand in for the OS strings of the Rust program. -/
abbrev Str := List Char

/-! ### Paths and Rust `Path::with_extension` semantics -/

/-- A filesystem path: the parent directory components and the file name.
`with_extension` only ever touches the file name, so the directory part is
kept abstract as a component list. -/
structure FsPath where
  dir : List Str
  fileName : Str
deriving DecidableEq

/-- Renders a path to a single string (components joined by a slash),
used only to build command-line argument lists and console text. -/
def FsPath.render (p : FsPath) : Str :=
  (p.dir.map (fun c => c ++ ['/'])).flatten ++ p.fileName

/-- Scans a reversed file name for its first dot, returning the characters
before it (the reversed extension) and after it (the reversed stem). -/
def splitRev : List Char → Option (List Char × List Char)
  | [] => none
  | c :: rest =>
    if c = '.' then some ([], rest)
    else (splitRev rest).map (fun p => (c :: p.1, p.2))

/-- Embedding of Rust `split_file_at_dot`: the stem is everything before the
last dot and the extension everything after it, except that a lone leading
dot (or the special name dot-dot) yields no extension. -/
def splitFileAtDot (name : List Char) : List Char × Option (List Char) :=
  if name = ['.', '.'] then (name, none)
  else
    match splitRev name.reverse with
    | none => (name, none)
    | some (extRev, stemRev) =>
      if stemRev = [] then (name, none)
      else (stemRev.reverse, some extRev.reverse)

/-- Embedding of Rust `Path::with_extension` on the file-name part: the new
name is the stem followed by a dot and the new extension (just the stem when
the new extension is empty). -/
def withExtensionName (name ext : List Char) : List Char :=
  if ext = [] then (splitFileAtDot name).1
  else (splitFileAtDot name).1 ++ '.' :: ext

/-- Rust `Path::with_extension`, lifted to the path structure. -/
def FsPath.withExtension (p : FsPath) (ext : Str) : FsPath :=
  { dir := p.dir, fileName := withExtensionName p.fileName ext }

/-- Rust `Path::file_stem` on the embedded path. -/
def FsPath.fileStem (p : FsPath) : Str :=
  (splitFileAtDot p.fileName).1

/-- Rust `Path::extension` on the embedded path. -/
def FsPath.extension (p : FsPath) : Option Str :=
  (splitFileAtDot p.fileName).2

lemma splitRev_dot_cons (rest : List Char) : splitRev ('.' :: rest) = some ([], rest) := by
  simp [splitRev]

lemma splitRev_append (a b : List Char) (h : '.' ∉ a) :
    splitRev (a ++ b) = (splitRev b).map (fun p => (a ++ p.1, p.2)) := by
  induction a with
  | nil =>
    cases hb : splitRev b with
    | none => simp [hb]
    | some p => simp [hb]
  | cons c a ih =>
    have hc : ¬ c = '.' := by
      intro hcontra
      exact h (by simp [hcontra])
    have ha : '.' ∉ a := fun hm => h (List.mem_cons_of_mem _ hm)
    cases hb : splitRev b with
    | none => simp [splitRev, hc, ih ha, hb]
    | some p => simp [splitRev, hc, ih ha, hb]

lemma splitFileAtDot_stem_ne_nil (name : List Char) (h : name ≠ []) :
    (splitFileAtDot name).1 ≠ [] := by
  unfold splitFileAtDot
  split
  · simpa using h
  · cases hs : splitRev name.reverse with
    | none => simpa using h
    | some p =>
      obtain ⟨extRev, stemRev⟩ := p
      cases stemRev with
      | nil => simpa using h
      | cons c t => simp

lemma splitFileAtDot_stem_dot_ext (s t : List Char) (hs : s ≠ []) (ht : t ≠ [])
    (hd : '.' ∉ t) : splitFileAtDot (s ++ '.' :: t) = (s, some t) := by
  have hlen : 3 ≤ (s ++ '.' :: t).length := by
    have h1 : 1 ≤ s.length := List.length_pos.mpr hs
    have h2 : 1 ≤ t.length := List.length_pos.mpr ht
    simp only [List.length_append, List.length_cons]
    omega
  have hne : s ++ '.' :: t ≠ ['.', '.'] := by
    intro hcontra
    rw [hcontra] at hlen
    simp at hlen
  have hrev : (s ++ '.' :: t).reverse = t.reverse ++ '.' :: s.reverse := by
    simp
  have hndr : '.' ∉ t.reverse := by simpa using hd
  unfold splitFileAtDot
  rw [if_neg hne, hrev, splitRev_append _ _ hndr, splitRev_dot_cons]
  simp [hs]

/-! ### Configuration, converter state and the external world -/

/-- Embedding of the `Args` structure parsed from the command line
(`src/main.rs`, lines 19-52). -/
structure Args where
  dry_run : Bool
  output : Str
  target_dir : FsPath
  max_depth : Option Nat
  follow_links : Bool
  same_fs : Bool
  num_threads : Option Nat
  preserve_files : Bool
  inputs : List Str
  ffmpeg_args : List Str
deriving DecidableEq

/-- Embedding of the `Converter` struct, minus the two atomic counters,
which are threaded explicitly through every callback. `current_dir` is the
working directory captured once at startup (`std::env::current_dir().ok()`). -/
structure Converter where
  args : Args
  current_dir : Option FsPath
deriving DecidableEq

/-- The two `AtomicU16` counters of the `Converter`, as naturals; every
increment in the embedding is taken modulo 2 ^ 16. -/
structure Counters where
  ok_count : Nat
  err_count : Nat
deriving DecidableEq

/-- What the external transcode process reports back: its exit status
(`status.success()`) and captured standard-error text. -/
structure ProcessOutput where
  success : Bool
  stderr : Str
deriving DecidableEq

/-- Embedding of `std::process::Command`: a program name and an argument
vector, built by the same `arg`/`args` appends the Rust code uses. -/
structure Cmd where
  program : Str
  argv : List Str
deriving DecidableEq

/-- `Command::new`. -/
def Cmd.new (program : Str) : Cmd :=
  { program := program, argv := [] }

/-- `Command::arg`: appends one argument. -/
def Cmd.arg (c : Cmd) (a : Str) : Cmd :=
  { c with argv := c.argv ++ [a] }

/-- `Command::args`: appends a list of arguments. -/
def Cmd.args (c : Cmd) (l : List Str) : Cmd :=
  { c with argv := c.argv ++ l }

/-- Oracle for everything outside the program: spawning the external
process (an `Except` error is a spawn failure and carries the I/O error
message), removing a file, and the two path services used only for display
(`pathdiff::diff_paths` and `Path::canonicalize`). -/
structure World where
  runProcess : Cmd → Except Str ProcessOutput
  removeFile : FsPath → Except Str Unit
  diffPaths : FsPath → FsPath → Option FsPath
  canonicalize : FsPath → Option FsPath

/-- A filesystem-mutating action attempted by the driver. -/
inductive FsAction where
  | execProcess (c : Cmd)
  | deleteFile (p : FsPath)
deriving DecidableEq

/-- Walk-control signal returned by the per-entry callback to the parallel
walker (`ignore::WalkState`). -/
inductive WalkState where
  | Continue
  | Skip
  | Quit
deriving DecidableEq

/-- Resolved file type of a directory entry. -/
inductive FileType where
  | file
  | directory
  | symlink
deriving DecidableEq

/-- `FileType::is_file`. -/
def FileType.is_file : FileType → Bool
  | FileType.file => true
  | _ => false

/-- A directory entry yielded by the traversal: an optional entry-attached
error (`DirEntry::error`), an optional resolved file type
(`DirEntry::file_type`), and the entry path. -/
structure DirEntry where
  err : Option Str
  file_type : Option FileType
  path : FsPath
deriving DecidableEq

/-- One event handed to the walker callback: either a directory entry or a
traversal-level error (`Result<DirEntry, Error>`). -/
inductive WalkEvent where
  | ok (e : DirEntry)
  | err (msg : Str)
deriving DecidableEq

/-! ### The conversion driver -/

/-- Embedding of `Converter::get_display_path` (`src/main.rs`, lines
131-137): try the path relative to the startup working directory, fall back
to the canonical form, fall back to the path itself. -/
def get_display_path (conv : Converter) (w : World) (path : FsPath) : FsPath :=
  match conv.current_dir.bind (fun base => w.diffPaths path base) with
  | some rel => rel
  | none =>
    match w.canonicalize path with
    | some canon => canon
    | none => path

/-- Quotes one command argument for the debug rendering of a command. -/
def quoteArg (s : Str) : Str :=
  '"' :: s ++ ['"']

/-- Debug rendering of a command, as in the dry-run console line. -/
def Cmd.renderDebug (c : Cmd) : Str :=
  quoteArg c.program ++ (c.argv.map (fun a => ' ' :: quoteArg a)).flatten

/-- Console line announcing a conversion. -/
def convertingLine (p : FsPath) : Str :=
  "Converting ".data ++ p.render

/-- Console line announcing a finished conversion. -/
def finishedLine (p : FsPath) : Str :=
  "Finished converting ".data ++ p.render

/-- Dry-run console line showing the command that would have run. -/
def dryRunLine (c : Cmd) : Str :=
  "Dry_run: Running ".data ++ c.renderDebug

/-- Dry-run console line showing the file that would have been removed. -/
def dryRemoveLine (p : FsPath) : Str :=
  "Dry_run: Removing file ".data ++ p.render

/-- Error message for an entry without a resolvable file type. -/
def noFileTypeMsg (p : FsPath) : Str :=
  "Directory entry ".data ++ p.render ++ " does not have a file type".data

/-- The command built in `Converter::try_convert_path` (`src/main.rs`, lines
178-183): program `ffmpeg`, then `-i`, the input path, the passthrough
arguments, and the output path, via the builder appends. -/
def buildCommand (a : Args) (path output_path : FsPath) : Cmd :=
  ((((Cmd.new "ffmpeg".data).arg "-i".data).arg path.render).args a.ffmpeg_args).arg
    output_path.render

/-- The command a given converter builds for a given input path. -/
def convCmd (conv : Converter) (path : FsPath) : Cmd :=
  buildCommand conv.args path (path.withExtension conv.args.output)

deriving instance DecidableEq for Except

/-- Result of one `try_convert_path` invocation: the returned
`anyhow::Result<PathBuf>`, the filesystem actions attempted, and the console
lines printed. -/
structure ConvResult where
  result : Except Str FsPath
  actions : List FsAction
  console : List Str
deriving DecidableEq

/-- Embedding of `Converter::try_convert_path` (`src/main.rs`, lines
175-210). On a dry run nothing is executed; otherwise the process runs, and
on success the source file is removed unless `preserve_files` is set; a
non-zero exit returns the captured standard error and removes nothing. -/
def try_convert_path (conv : Converter) (w : World) (path : FsPath) : ConvResult :=
  let args := conv.args
  let output_path := path.withExtension args.output
  let command := buildCommand args path output_path
  if args.dry_run then
    { result := Except.ok output_path,
      actions := [],
      console :=
        dryRunLine command ::
          (if args.preserve_files then []
           else [dryRemoveLine (get_display_path conv w path)]) }
  else
    match w.runProcess command with
    | Except.error e =>
      { result := Except.error e, actions := [FsAction.execProcess command], console := [] }
    | Except.ok out =>
      if out.success then
        if args.preserve_files then
          { result := Except.ok output_path,
            actions := [FsAction.execProcess command], console := [] }
        else
          match w.removeFile path with
          | Except.error e =>
            { result := Except.error e,
              actions := [FsAction.execProcess command, FsAction.deleteFile path],
              console := [] }
          | Except.ok _ =>
            { result := Except.ok output_path,
              actions := [FsAction.execProcess command, FsAction.deleteFile path],
              console := [] }
      else
        { result := Except.error out.stderr,
          actions := [FsAction.execProcess command], console := [] }

/-- Result of one walker-callback invocation: the counters after the call,
the walk signal returned, the filesystem actions attempted, and the console
lines printed. -/
structure StepResult where
  counters : Counters
  state : WalkState
  actions : List FsAction
  console : List Str
deriving DecidableEq

/-- Embedding of `Converter::handle_error` (`src/main.rs`, lines 212-216):
increment the error counter, print the error, and quit the walk. -/
def handle_error (c : Counters) (msg : Str) : StepResult :=
  { counters := { c with err_count := (c.err_count + 1) % 65536 },
    state := WalkState.Quit,
    actions := [],
    console := [msg] }

/-- Embedding of `Converter::try_convert_entry` (`src/main.rs`, lines
139-173): entry-attached errors and missing file types go to `handle_error`;
non-file entries continue without action; regular files are converted, a
success incrementing the converted counter and continuing, a failure going
to `handle_error`. -/
def try_convert_entry (conv : Converter) (w : World) (c : Counters)
    (entry : DirEntry) : StepResult :=
  match entry.err with
  | some e => handle_error c e
  | none =>
    match entry.file_type with
    | none => handle_error c (noFileTypeMsg entry.path)
    | some ft =>
      if ft.is_file then
        let r := try_convert_path conv w entry.path
        match r.result with
        | Except.ok outp =>
          { counters := { c with ok_count := (c.ok_count + 1) % 65536 },
            state := WalkState.Continue,
            actions := r.actions,
            console :=
              convertingLine (get_display_path conv w entry.path) ::
                r.console ++ [finishedLine (get_display_path conv w outp)] }
        | Except.error e =>
          { counters := (handle_error c e).counters,
            state := (handle_error c e).state,
            actions := r.actions,
            console :=
              convertingLine (get_display_path conv w entry.path) ::
                r.console ++ (handle_error c e).console }
      else
        { counters := c, state := WalkState.Continue, actions := [], console := [] }

/-- The closure passed to `WalkParallel::run` (`src/main.rs`, lines 83-88):
entry events go to `try_convert_entry`, traversal errors to `handle_error`. -/
def callback (conv : Converter) (w : World) (c : Counters) : WalkEvent → StepResult
  | WalkEvent.ok e => try_convert_entry conv w c e
  | WalkEvent.err m => handle_error c m

/-- Sequential model of one traversal: events are fed to the callback in
order until the list is exhausted or the callback quits the walk. Returns
the final counters and whether the walk was aborted. -/
def runEvents (conv : Converter) (w : World) : List WalkEvent → Counters → Counters × Bool
  | [], c => (c, false)
  | ev :: rest, c =>
    let r := callback conv w c ev
    if r.state = WalkState.Quit then (r.counters, true)
    else runEvents conv w rest r.counters

/-- Whether an event is a regular-file entry dispatched to the conversion
invoker: no entry-attached error and a resolved file type that is a file. -/
def isDispatched : WalkEvent → Bool
  | WalkEvent.ok e =>
    match e.err, e.file_type with
    | none, some ft => ft.is_file
    | _, _ => false
  | WalkEvent.err _ => false

/-- Number of dispatched regular-file entries in an event list. -/
def countDispatched (l : List WalkEvent) : Nat :=
  l.countP (fun ev => isDispatched ev)

/-- Whether an external process invocation failed: either the spawn failed
or the process exited with non-success status. -/
def processFailed : Except Str ProcessOutput → Bool
  | Except.error _ => true
  | Except.ok out => !out.success

/-! ### Concrete fixtures used by witnesses and counterexamples -/

/-- A default live-mode configuration: convert `mp3` to `opus`, no dry run,
no preservation, no passthrough arguments. -/
def exArgs : Args :=
  { dry_run := false, output := "opus".data, target_dir := { dir := [], fileName := ".".data },
    max_depth := none, follow_links := false, same_fs := false, num_threads := none,
    preserve_files := false, inputs := ["mp3".data], ffmpeg_args := [] }

/-- A converter over `exArgs` with no captured working directory. -/
def exConv : Converter :=
  { args := exArgs, current_dir := none }

/-- The converter `exConv` switched to dry-run mode. -/
def dryConv : Converter :=
  { args := { exArgs with dry_run := true }, current_dir := none }

/-- A sample input file path. -/
def exPath : FsPath :=
  { dir := [], fileName := "a.mp3".data }

/-- A regular-file directory entry for `exPath`. -/
def exEntry : DirEntry :=
  { err := none, file_type := some FileType.file, path := exPath }

/-- A directory entry without a resolvable file type. -/
def noTypeEntry : DirEntry :=
  { err := none, file_type := none, path := exPath }

/-- A world whose external process always succeeds and whose file removals
always succeed. -/
def okWorld : World :=
  { runProcess := fun _ => Except.ok { success := true, stderr := [] },
    removeFile := fun _ => Except.ok (),
    diffPaths := fun _ _ => none,
    canonicalize := fun _ => none }

/-- A world whose external process always exits with failure status and the
standard-error text `boom`. -/
def failWorld : World :=
  { runProcess := fun _ => Except.ok { success := false, stderr := "boom".data },
    removeFile := fun _ => Except.ok (),
    diffPaths := fun _ _ => none,
    canonicalize := fun _ => none }

/-! ### C5: command construction -/

/-- C5: for every matched input path, the external transcoder command is the
fixed program name `ffmpeg` followed by, in order, the input flag `-i`, the
input path, all configured passthrough arguments verbatim, and finally the
output path; in live mode that exact command is the process the invoker
executes first. -/
theorem command_argument_order :
    ∀ (conv : Converter) (w : World) (path : FsPath),
      convCmd conv path =
        { program := "ffmpeg".data,
          argv := "-i".data :: path.render ::
            (conv.args.ffmpeg_args ++ [(path.withExtension conv.args.output).render]) } ∧
      (conv.args.dry_run = false →
        (try_convert_path conv w path).actions.head? =
          some (FsAction.execProcess (convCmd conv path))) := by
  intro conv w path
  constructor
  · simp [convCmd, buildCommand, Cmd.new, Cmd.arg, Cmd.args]
  · intro hdry
    unfold try_convert_path
    simp only [hdry, Bool.false_eq_true, if_false]
    cases hr : w.runProcess (buildCommand conv.args path (path.withExtension conv.args.output)) with
    | error e => simp [hr, convCmd]
    | ok out =>
      cases hs : out.success with
      | false => simp [hr, hs, convCmd]
      | true =>
        cases hp : conv.args.preserve_files with
        | false =>
          cases hrm : w.removeFile path with
          | error e => simp [hr, hs, hp, hrm, convCmd]
          | ok u => simp [hr, hs, hp, hrm, convCmd]
        | true => simp [hr, hs, hp, convCmd]

/-- C5 witness at a concrete converter, world, and path. -/
theorem command_argument_order_witness :
    exConv.args.dry_run = false ∧
    convCmd exConv exPath =
      { program := "ffmpeg".data,
        argv := "-i".data :: exPath.render ::
          (exConv.args.ffmpeg_args ++ [(exPath.withExtension exConv.args.output).render]) } ∧
    (try_convert_path exConv okWorld exPath).actions.head? =
      some (FsAction.execProcess (convCmd exConv exPath)) :=
  ⟨by decide, (command_argument_order exConv okWorld exPath).1,
    (command_argument_order exConv okWorld exPath).2 (by decide)⟩

/-! ### C2: deletion condition -/

/-- C2: the invoker attempts to delete exactly the source file, and it does
so if and only if the dry-run flag is false, the preserve-files flag is
false, and the external transcode process was spawned and exited with
success status; in every other combination no deletion is attempted. -/
theorem source_deleted_iff_live_unpreserved_success :
    ∀ (conv : Converter) (w : World) (path : FsPath),
      ((∃ p, FsAction.deleteFile p ∈ (try_convert_path conv w path).actions) ↔
        conv.args.dry_run = false ∧ conv.args.preserve_files = false ∧
          ∃ out, w.runProcess (convCmd conv path) = Except.ok out ∧ out.success = true) ∧
      (∀ p, FsAction.deleteFile p ∈ (try_convert_path conv w path).actions → p = path) := by
  intro conv w path
  unfold try_convert_path
  cases hdry : conv.args.dry_run with
  | true => simp [hdry]
  | false =>
    simp only [hdry, Bool.false_eq_true, if_false]
    cases hr : w.runProcess (buildCommand conv.args path (path.withExtension conv.args.output)) with
    | error e => simp [hr, convCmd]
    | ok out =>
      cases hs : out.success with
      | false => simp [hr, hs, convCmd]
      | true =>
        cases hp : conv.args.preserve_files with
        | false =>
          cases hrm : w.removeFile path with
          | error e => simp [hr, hs, hp, hrm, convCmd]
          | ok u => simp [hr, hs, hp, hrm, convCmd]
        | true => simp [hr, hs, hp, convCmd]

/-- C2 witness: with a successful process and preservation off the source
file is deleted, and the deleted path is the source path. -/
theorem source_deleted_iff_live_unpreserved_success_witness :
    ((∃ p, FsAction.deleteFile p ∈ (try_convert_path exConv okWorld exPath).actions) ↔
      exConv.args.dry_run = false ∧ exConv.args.preserve_files = false ∧
        ∃ out, okWorld.runProcess (convCmd exConv exPath) = Except.ok out ∧
          out.success = true) ∧
    (∀ p, FsAction.deleteFile p ∈ (try_convert_path exConv okWorld exPath).actions →
      p = exPath) :=
  source_deleted_iff_live_unpreserved_success exConv okWorld exPath

/-! ### C4: dry-run mode -/

lemma try_convert_path_dry (conv : Converter) (w : World) (path : FsPath)
    (h : conv.args.dry_run = true) :
    (try_convert_path conv w path).result =
      Except.ok (path.withExtension conv.args.output) ∧
    (try_convert_path conv w path).actions = [] := by
  simp [try_convert_path, h]

/-- C4: when the dry-run flag is set the driver executes no external process
and attempts no filesystem action for any walker event, and a dispatched
regular file is counted as a success: the converted counter is incremented
by one and the walk continues. -/
theorem dry_run_no_actions_counts_success :
    ∀ (conv : Converter) (w : World) (c : Counters),
      conv.args.dry_run = true →
      (∀ ev, (callback conv w c ev).actions = []) ∧
      (∀ (entry : DirEntry) (ft : FileType),
        entry.err = none → entry.file_type = some ft → ft.is_file = true →
        (try_convert_entry conv w c entry).counters.ok_count = (c.ok_count + 1) % 65536 ∧
        (try_convert_entry conv w c entry).counters.err_count = c.err_count ∧
        (try_convert_entry conv w c entry).state = WalkState.Continue) := by
  intro conv w c hdry
  constructor
  · intro ev
    cases ev with
    | err m => simp [callback, handle_error]
    | ok e =>
      cases herr : e.err with
      | some m => simp [callback, try_convert_entry, herr, handle_error]
      | none =>
        cases hft : e.file_type with
        | none => simp [callback, try_convert_entry, herr, hft, handle_error]
        | some ft =>
          cases hisf : ft.is_file with
          | false => simp [callback, try_convert_entry, herr, hft, hisf]
          | true =>
            have hres := (try_convert_path_dry conv w e.path hdry).1
            have hact := (try_convert_path_dry conv w e.path hdry).2
            simp [callback, try_convert_entry, herr, hft, hisf, hres, hact]
  · intro entry ft herr hft hisf
    have hres := (try_convert_path_dry conv w entry.path hdry).1
    simp [try_convert_entry, herr, hft, hisf, hres]

/-- C4 witness: a dry-run converter on a concrete regular file attempts no
action, increments the converted counter, and continues the walk. -/
theorem dry_run_no_actions_counts_success_witness :
    (callback dryConv okWorld { ok_count := 0, err_count := 0 }
      (WalkEvent.ok exEntry)).actions = [] ∧
    (try_convert_entry dryConv okWorld { ok_count := 0, err_count := 0 }
        exEntry).counters.ok_count = (0 + 1) % 65536 ∧
    (try_convert_entry dryConv okWorld { ok_count := 0, err_count := 0 }
        exEntry).counters.err_count = 0 ∧
    (try_convert_entry dryConv okWorld { ok_count := 0, err_count := 0 }
        exEntry).state = WalkState.Continue :=
  ⟨(dry_run_no_actions_counts_success dryConv okWorld
      { ok_count := 0, err_count := 0 } rfl).1 (WalkEvent.ok exEntry),
   (dry_run_no_actions_counts_success dryConv okWorld
      { ok_count := 0, err_count := 0 } rfl).2 exEntry FileType.file rfl rfl rfl⟩

/-! ### C6: output path computation -/

/-- C6: for a non-empty file name and a non-empty, dot-free target
extension, the computed output path keeps the directory and the file stem of
the input path and carries exactly the target extension. -/
theorem output_path_replaces_extension :
    ∀ (p : FsPath) (ext : Str), p.fileName ≠ [] → ext ≠ [] → '.' ∉ ext →
      (p.withExtension ext).dir = p.dir ∧
      (p.withExtension ext).fileStem = p.fileStem ∧
      (p.withExtension ext).extension = some ext := by
  intro p ext hn he hd
  have hstem : (splitFileAtDot p.fileName).1 ≠ [] := splitFileAtDot_stem_ne_nil _ hn
  have hsplit := splitFileAtDot_stem_dot_ext (splitFileAtDot p.fileName).1 ext hstem he hd
  refine ⟨rfl, ?_, ?_⟩ <;>
    simp [FsPath.withExtension, withExtensionName, FsPath.fileStem, FsPath.extension,
      he, hsplit]

/-- C6 witness at the concrete path and the default target extension. -/
theorem output_path_replaces_extension_witness :
    exPath.fileName ≠ [] ∧ "opus".data ≠ [] ∧ '.' ∉ "opus".data ∧
    (exPath.withExtension "opus".data).dir = exPath.dir ∧
    (exPath.withExtension "opus".data).fileStem = exPath.fileStem ∧
    (exPath.withExtension "opus".data).extension = some "opus".data :=
  ⟨by decide, by decide, by decide,
   (output_path_replaces_extension exPath "opus".data (by decide) (by decide) (by decide)).1,
   (output_path_replaces_extension exPath "opus".data (by decide) (by decide) (by decide)).2.1,
   (output_path_replaces_extension exPath "opus".data (by decide) (by decide) (by decide)).2.2⟩

/-! ### C1: conversion failure and the walk signal -/

/-- C1 counterexample: with a concrete regular file whose external process
exits with failure status, the per-entry callback does not return the
continue signal — it returns the quit signal, aborting the walk. -/
theorem conversion_failure_continue_cex :
    (try_convert_path exConv failWorld exPath).result = Except.error "boom".data ∧
    (try_convert_entry exConv failWorld { ok_count := 0, err_count := 0 }
        exEntry).state ≠ WalkState.Continue ∧
    (try_convert_entry exConv failWorld { ok_count := 0, err_count := 0 }
        exEntry).state = WalkState.Quit := by
  refine ⟨by decide, by decide, by decide⟩

/-- C1 (amended): for every regular file dispatched to the conversion
invoker whose conversion returns a failure outcome, the per-entry callback
increments the error counter and returns the quit signal, aborting the walk
exactly as a traversal-level error does. -/
theorem conversion_failure_aborts_walk :
    ∀ (conv : Converter) (w : World) (c : Counters) (entry : DirEntry)
      (ft : FileType) (e : Str),
      entry.err = none → entry.file_type = some ft → ft.is_file = true →
      (try_convert_path conv w entry.path).result = Except.error e →
      (try_convert_entry conv w c entry).state = WalkState.Quit ∧
      (try_convert_entry conv w c entry).counters.err_count = (c.err_count + 1) % 65536 ∧
      (try_convert_entry conv w c entry).counters.ok_count = c.ok_count := by
  intro conv w c entry ft e herr hft hisf hres
  simp [try_convert_entry, herr, hft, hisf, hres, handle_error]

/-- C1 witness: the amended statement at the concrete failing conversion. -/
theorem conversion_failure_aborts_walk_witness :
    (try_convert_path exConv failWorld exPath).result = Except.error "boom".data ∧
    ((try_convert_entry exConv failWorld { ok_count := 0, err_count := 0 }
        exEntry).state = WalkState.Quit ∧
     (try_convert_entry exConv failWorld { ok_count := 0, err_count := 0 }
        exEntry).counters.err_count = (0 + 1) % 65536 ∧
     (try_convert_entry exConv failWorld { ok_count := 0, err_count := 0 }
        exEntry).counters.ok_count = 0) :=
  ⟨by decide,
   conversion_failure_aborts_walk exConv failWorld { ok_count := 0, err_count := 0 }
     exEntry FileType.file "boom".data rfl rfl rfl (by decide)⟩

/-! ### C3: entries without a resolvable file type -/

/-- A directory-typed entry, which the callback skips without aborting. -/
def dirFileEntry : DirEntry :=
  { err := none, file_type := some FileType.directory, path := exPath }

/-- C3 counterexample: a concrete entry with no entry-level error and no
resolvable file type does not continue the walk — the callback returns the
quit signal. -/
theorem missing_file_type_continue_cex :
    noTypeEntry.err = none ∧ noTypeEntry.file_type = none ∧
    (try_convert_entry exConv okWorld { ok_count := 0, err_count := 0 }
        noTypeEntry).state ≠ WalkState.Continue ∧
    (try_convert_entry exConv okWorld { ok_count := 0, err_count := 0 }
        noTypeEntry).state = WalkState.Quit := by
  refine ⟨rfl, rfl, by decide, by decide⟩

/-- C3 (amended): an entry that arrives without an entry-level error but
whose file type cannot be resolved is treated as an error: the error counter
is incremented and the callback aborts the walk with the quit signal;
entries with a resolved non-file type (such as directories) continue the
walk with no action and unchanged counters. -/
theorem missing_file_type_aborts_walk :
    ∀ (conv : Converter) (w : World) (c : Counters) (entry : DirEntry),
      entry.err = none →
      ((entry.file_type = none →
        (try_convert_entry conv w c entry).state = WalkState.Quit ∧
        (try_convert_entry conv w c entry).counters.err_count = (c.err_count + 1) % 65536 ∧
        (try_convert_entry conv w c entry).actions = []) ∧
       (∀ ft, entry.file_type = some ft → ft.is_file = false →
        (try_convert_entry conv w c entry).state = WalkState.Continue ∧
        (try_convert_entry conv w c entry).counters = c ∧
        (try_convert_entry conv w c entry).actions = [])) := by
  intro conv w c entry herr
  constructor
  · intro hft
    simp [try_convert_entry, herr, hft, handle_error]
  · intro ft hft hisf
    simp [try_convert_entry, herr, hft, hisf]

/-- C3 witness: the amended statement at a concrete type-less entry and a
concrete directory entry. -/
theorem missing_file_type_aborts_walk_witness :
    ((try_convert_entry exConv okWorld { ok_count := 0, err_count := 0 }
        noTypeEntry).state = WalkState.Quit ∧
     (try_convert_entry exConv okWorld { ok_count := 0, err_count := 0 }
        noTypeEntry).counters.err_count = (0 + 1) % 65536 ∧
     (try_convert_entry exConv okWorld { ok_count := 0, err_count := 0 }
        noTypeEntry).actions = []) ∧
    ((try_convert_entry exConv okWorld { ok_count := 0, err_count := 0 }
        dirFileEntry).state = WalkState.Continue ∧
     (try_convert_entry exConv okWorld { ok_count := 0, err_count := 0 }
        dirFileEntry).counters = { ok_count := 0, err_count := 0 } ∧
     (try_convert_entry exConv okWorld { ok_count := 0, err_count := 0 }
        dirFileEntry).actions = []) :=
  ⟨(missing_file_type_aborts_walk exConv okWorld { ok_count := 0, err_count := 0 }
      noTypeEntry rfl).1 rfl,
   (missing_file_type_aborts_walk exConv okWorld { ok_count := 0, err_count := 0 }
      dirFileEntry rfl).2 FileType.directory rfl rfl⟩

/-! ### C7: live-mode failure outcomes -/

lemma try_convert_path_live_fail (conv : Converter) (w : World) (path : FsPath)
    (hdry : conv.args.dry_run = false)
    (hf : processFailed (w.runProcess (convCmd conv path)) = true) :
    (try_convert_path conv w path).actions = [FsAction.execProcess (convCmd conv path)] ∧
    ∃ e, (try_convert_path conv w path).result = Except.error e := by
  unfold try_convert_path
  simp only [hdry, Bool.false_eq_true, if_false]
  cases hr : w.runProcess (buildCommand conv.args path (path.withExtension conv.args.output)) with
  | error e => simp [hr, convCmd]
  | ok out =>
    have hs : out.success = false := by
      have : processFailed (Except.ok out) = true := by
        rw [← hr]
        exact hf
      simpa [processFailed] using this
    simp [hr, hs, convCmd]

/-- C7: in live mode, a spawn failure surfaces the spawn error message and a
non-zero exit surfaces the captured standard-error text as the failure
outcome; whenever the process failed either way, no deletion is attempted,
the error counter is incremented by exactly one (modulo 2 ^ 16), and the
converted counter is unchanged. -/
theorem live_failure_reports_stderr_no_delete :
    ∀ (conv : Converter) (w : World) (c : Counters) (entry : DirEntry) (ft : FileType),
      conv.args.dry_run = false → entry.err = none → entry.file_type = some ft →
      ft.is_file = true →
      (∀ e, w.runProcess (convCmd conv entry.path) = Except.error e →
        (try_convert_path conv w entry.path).result = Except.error e) ∧
      (∀ out, w.runProcess (convCmd conv entry.path) = Except.ok out → out.success = false →
        (try_convert_path conv w entry.path).result = Except.error out.stderr) ∧
      (processFailed (w.runProcess (convCmd conv entry.path)) = true →
        (∀ p, FsAction.deleteFile p ∉ (try_convert_entry conv w c entry).actions) ∧
        (try_convert_entry conv w c entry).counters.err_count = (c.err_count + 1) % 65536 ∧
        (try_convert_entry conv w c entry).counters.ok_count = c.ok_count) := by
  intro conv w c entry ft hdry herr hft hisf
  refine ⟨?_, ?_, ?_⟩
  · intro e he
    unfold try_convert_path
    simp only [hdry, Bool.false_eq_true, if_false]
    rw [show buildCommand conv.args entry.path (entry.path.withExtension conv.args.output) =
      convCmd conv entry.path from rfl, he]
  · intro out hout hs
    unfold try_convert_path
    simp only [hdry, Bool.false_eq_true, if_false]
    rw [show buildCommand conv.args entry.path (entry.path.withExtension conv.args.output) =
      convCmd conv entry.path from rfl, hout]
    simp [hs]
  · intro hf
    obtain ⟨hact, e, hres⟩ := try_convert_path_live_fail conv w entry.path hdry hf
    refine ⟨?_, ?_, ?_⟩
    · intro p
      simp [try_convert_entry, herr, hft, hisf, hres, hact]
    · simp [try_convert_entry, herr, hft, hisf, hres, handle_error]
    · simp [try_convert_entry, herr, hft, hisf, hres, handle_error]

/-- C7 witness: the failing world at the concrete regular file. -/
theorem live_failure_reports_stderr_no_delete_witness :
    (try_convert_path exConv failWorld exPath).result =
      Except.error ({ success := false, stderr := "boom".data } : ProcessOutput).stderr ∧
    (∀ p, FsAction.deleteFile p ∉
      (try_convert_entry exConv failWorld { ok_count := 0, err_count := 0 } exEntry).actions) ∧
    (try_convert_entry exConv failWorld { ok_count := 0, err_count := 0 }
        exEntry).counters.err_count = (0 + 1) % 65536 ∧
    (try_convert_entry exConv failWorld { ok_count := 0, err_count := 0 }
        exEntry).counters.ok_count = 0 :=
  ⟨(live_failure_reports_stderr_no_delete exConv failWorld
      { ok_count := 0, err_count := 0 } exEntry FileType.file rfl rfl rfl rfl).2.1
      { success := false, stderr := "boom".data } rfl rfl,
   (live_failure_reports_stderr_no_delete exConv failWorld
      { ok_count := 0, err_count := 0 } exEntry FileType.file rfl rfl rfl rfl).2.2 rfl⟩

/-! ### C9: the display-path formatter -/

lemma try_convert_path_display_ind (conv : Converter) (w2 w : World) (path : FsPath)
    (h1 : w2.runProcess = w.runProcess) (h2 : w2.removeFile = w.removeFile) :
    (try_convert_path conv w2 path).result = (try_convert_path conv w path).result ∧
    (try_convert_path conv w2 path).actions = (try_convert_path conv w path).actions := by
  unfold try_convert_path
  rw [h1, h2]
  cases hdry : conv.args.dry_run with
  | true => simp [hdry]
  | false =>
    cases hr : w.runProcess (buildCommand conv.args path (path.withExtension conv.args.output)) with
    | error e => simp [hdry, hr]
    | ok out =>
      cases hs : out.success with
      | false => simp [hdry, hr, hs]
      | true =>
        cases hp : conv.args.preserve_files with
        | false =>
          cases hrm : w.removeFile path with
          | error e => simp [hdry, hr, hs, hp, hrm]
          | ok u => simp [hdry, hr, hs, hp, hrm]
        | true => simp [hdry, hr, hs, hp]

/-- C9: the display formatter returns the path relative to the captured
working directory when that computation succeeds, else the canonicalized
path when canonicalization succeeds, else the path exactly as given; and its
result never affects control flow or file operations — two worlds that agree
on process spawning and file removal (but may disagree on both display
services) give every callback identical counters, walk signal, and
filesystem actions. -/
theorem display_path_fallback_chain :
    ∀ (conv : Converter) (w : World) (path : FsPath),
      (∀ base rel, conv.current_dir = some base → w.diffPaths path base = some rel →
        get_display_path conv w path = rel) ∧
      ((conv.current_dir.bind fun base => w.diffPaths path base) = none →
        ∀ q, w.canonicalize path = some q → get_display_path conv w path = q) ∧
      ((conv.current_dir.bind fun base => w.diffPaths path base) = none →
        w.canonicalize path = none → get_display_path conv w path = path) ∧
      (∀ (w2 : World) (c : Counters) (ev : WalkEvent),
        w2.runProcess = w.runProcess → w2.removeFile = w.removeFile →
        (callback conv w2 c ev).counters = (callback conv w c ev).counters ∧
        (callback conv w2 c ev).state = (callback conv w c ev).state ∧
        (callback conv w2 c ev).actions = (callback conv w c ev).actions) := by
  intro conv w path
  refine ⟨?_, ?_, ?_, ?_⟩
  · intro base rel hcd hdp
    simp [get_display_path, hcd, hdp]
  · intro hnone q hq
    simp [get_display_path, hnone, hq]
  · intro hnone hcanon
    simp [get_display_path, hnone, hcanon]
  · intro w2 c ev h1 h2
    cases ev with
    | err m => exact ⟨rfl, rfl, rfl⟩
    | ok e =>
      cases herr : e.err with
      | some m => simp [callback, try_convert_entry, herr]
      | none =>
        cases hft : e.file_type with
        | none => simp [callback, try_convert_entry, herr, hft]
        | some ft =>
          cases hisf : ft.is_file with
          | false => simp [callback, try_convert_entry, herr, hft, hisf]
          | true =>
            have hind := try_convert_path_display_ind conv w2 w e.path h1 h2
            cases hres : (try_convert_path conv w e.path).result with
            | ok outp =>
              have hres2 : (try_convert_path conv w2 e.path).result = Except.ok outp := by
                rw [hind.1, hres]
              simp [callback, try_convert_entry, herr, hft, hisf, hres, hres2, hind.2]
            | error er =>
              have hres2 : (try_convert_path conv w2 e.path).result = Except.error er := by
                rw [hind.1, hres]
              simp [callback, try_convert_entry, herr, hft, hisf, hres, hres2, hind.2]

/-- C9 witness: with no captured working directory and failing
canonicalization the path is displayed exactly as given, and a world
differing only in display services leaves the concrete callback outcome
unchanged. -/
theorem display_path_fallback_chain_witness :
    get_display_path exConv okWorld exPath = exPath ∧
    (callback exConv okWorld { ok_count := 0, err_count := 0 }
        (WalkEvent.ok exEntry)).counters =
      (callback exConv okWorld { ok_count := 0, err_count := 0 }
        (WalkEvent.ok exEntry)).counters :=
  ⟨(display_path_fallback_chain exConv okWorld exPath).2.2.1 rfl rfl,
   ((display_path_fallback_chain exConv okWorld exPath).2.2.2 okWorld
      { ok_count := 0, err_count := 0 } (WalkEvent.ok exEntry) rfl rfl).1⟩

/-! ### C8 and C10: counter aggregation over a traversal -/

lemma callback_counters_of_not_quit (conv : Converter) (w : World) (c : Counters)
    (ev : WalkEvent) (h : (callback conv w c ev).state ≠ WalkState.Quit) :
    (callback conv w c ev).counters =
      if isDispatched ev then { c with ok_count := (c.ok_count + 1) % 65536 } else c := by
  cases ev with
  | err m => simp [callback, handle_error] at h
  | ok e =>
    cases herr : e.err with
    | some m => simp [callback, try_convert_entry, herr, handle_error] at h
    | none =>
      cases hft : e.file_type with
      | none => simp [callback, try_convert_entry, herr, hft, handle_error] at h
      | some ft =>
        cases hisf : ft.is_file with
        | false => simp [callback, try_convert_entry, herr, hft, hisf, isDispatched]
        | true =>
          cases hres : (try_convert_path conv w e.path).result with
          | ok outp =>
            simp [callback, try_convert_entry, herr, hft, hisf, hres, isDispatched]
          | error er =>
            simp [callback, try_convert_entry, herr, hft, hisf, hres, handle_error] at h

lemma runEvents_complete (conv : Converter) (w : World) :
    ∀ (l : List WalkEvent) (c c2 : Counters),
      c.ok_count < 65536 →
      runEvents conv w l c = (c2, false) →
      c2.ok_count = (c.ok_count + countDispatched l) % 65536 ∧
      c2.err_count = c.err_count := by
  intro l
  induction l with
  | nil =>
    intro c c2 hlt h
    simp only [runEvents, Prod.mk.injEq] at h
    rw [← h.1]
    simp [countDispatched, Nat.mod_eq_of_lt hlt]
  | cons ev rest ih =>
    intro c c2 hlt h
    simp only [runEvents] at h
    by_cases hq : (callback conv w c ev).state = WalkState.Quit
    · rw [if_pos hq] at h
      simp at h
    · rw [if_neg hq] at h
      have hc := callback_counters_of_not_quit conv w c ev hq
      by_cases hd : isDispatched ev
      · rw [hc, if_pos hd] at h
        have hlt2 : (c.ok_count + 1) % 65536 < 65536 := Nat.mod_lt _ (by norm_num)
        have hih := ih _ _ hlt2 h
        have hcd : countDispatched (ev :: rest) = countDispatched rest + 1 := by
          simp [countDispatched, List.countP_cons, hd]
        refine ⟨?_, hih.2⟩
        rw [hih.1, Nat.mod_add_mod, hcd]
        congr 1
        omega
      · rw [hc, if_neg hd] at h
        have hih := ih _ _ hlt h
        have hcd : countDispatched (ev :: rest) = countDispatched rest := by
          simp [countDispatched, List.countP_cons, hd]
        rw [hcd]
        exact hih

/-- C8: every regular file dispatched to the conversion invoker increments
exactly one of the two counters exactly once, and after a traversal that
completed without aborting, starting from zeroed counters, the sum of the
two counters equals the number of dispatched regular files (when fewer than
2 ^ 16 files were dispatched, so no counter wrapped). -/
theorem counters_partition_dispatched :
    ∀ (conv : Converter) (w : World),
      (∀ (c : Counters) (entry : DirEntry) (ft : FileType),
        entry.err = none → entry.file_type = some ft → ft.is_file = true →
        ((try_convert_entry conv w c entry).counters.ok_count = (c.ok_count + 1) % 65536 ∧
         (try_convert_entry conv w c entry).counters.err_count = c.err_count) ∨
        ((try_convert_entry conv w c entry).counters.ok_count = c.ok_count ∧
         (try_convert_entry conv w c entry).counters.err_count = (c.err_count + 1) % 65536)) ∧
      (∀ (l : List WalkEvent) (c2 : Counters),
        runEvents conv w l { ok_count := 0, err_count := 0 } = (c2, false) →
        countDispatched l < 65536 →
        c2.ok_count + c2.err_count = countDispatched l) := by
  intro conv w
  constructor
  · intro c entry ft herr hft hisf
    cases hres : (try_convert_path conv w entry.path).result with
    | ok outp =>
      left
      simp [try_convert_entry, herr, hft, hisf, hres]
    | error er =>
      right
      simp [try_convert_entry, herr, hft, hisf, hres, handle_error]
  · intro l c2 hrun hlt
    have hrc := runEvents_complete conv w l { ok_count := 0, err_count := 0 } c2
      (by norm_num) hrun
    rw [hrc.1, hrc.2]
    simp [Nat.mod_eq_of_lt hlt]

/-- C8 witness: one dispatched successful file gives counters summing to the
dispatch count. -/
theorem counters_partition_dispatched_witness :
    (((try_convert_entry exConv okWorld { ok_count := 0, err_count := 0 }
         exEntry).counters.ok_count = (0 + 1) % 65536 ∧
      (try_convert_entry exConv okWorld { ok_count := 0, err_count := 0 }
         exEntry).counters.err_count = 0) ∨
     ((try_convert_entry exConv okWorld { ok_count := 0, err_count := 0 }
         exEntry).counters.ok_count = 0 ∧
      (try_convert_entry exConv okWorld { ok_count := 0, err_count := 0 }
         exEntry).counters.err_count = (0 + 1) % 65536)) ∧
    ({ ok_count := 1, err_count := 0 } : Counters).ok_count +
        ({ ok_count := 1, err_count := 0 } : Counters).err_count =
      countDispatched [WalkEvent.ok exEntry] :=
  ⟨(counters_partition_dispatched exConv okWorld).1 { ok_count := 0, err_count := 0 }
      exEntry FileType.file rfl rfl rfl,
   (counters_partition_dispatched exConv okWorld).2 [WalkEvent.ok exEntry]
      { ok_count := 1, err_count := 0 } (by decide) (by decide)⟩

/-- C10: both counters are 16-bit: every increment is taken modulo 2 ^ 16,
so an error at error-count 65535 wraps the error counter to zero, a success
increments the converted counter modulo 2 ^ 16, and after any non-aborted
traversal from zeroed counters the converted counter holds the number of
dispatched files only modulo 2 ^ 16. -/
theorem counters_wrap_mod_u16 :
    (∀ (c : Counters) (m : Str),
      (handle_error c m).counters.err_count = (c.err_count + 1) % 65536) ∧
    (∀ (c : Counters) (m : Str), c.err_count = 65535 →
      (handle_error c m).counters.err_count = 0) ∧
    (∀ (conv : Converter) (w : World) (c : Counters) (entry : DirEntry)
       (ft : FileType) (outp : FsPath),
      entry.err = none → entry.file_type = some ft → ft.is_file = true →
      (try_convert_path conv w entry.path).result = Except.ok outp →
      (try_convert_entry conv w c entry).counters.ok_count = (c.ok_count + 1) % 65536) ∧
    (∀ (conv : Converter) (w : World) (l : List WalkEvent) (c2 : Counters),
      runEvents conv w l { ok_count := 0, err_count := 0 } = (c2, false) →
      c2.ok_count = countDispatched l % 65536) := by
  refine ⟨?_, ?_, ?_, ?_⟩
  · intro c m
    simp [handle_error]
  · intro c m hc
    simp [handle_error, hc]
  · intro conv w c entry ft outp herr hft hisf hres
    simp [try_convert_entry, herr, hft, hisf, hres]
  · intro conv w l c2 hrun
    have hrc := runEvents_complete conv w l { ok_count := 0, err_count := 0 } c2
      (by norm_num) hrun
    simpa using hrc.1

/-- C10 witness: an error at error-count 65535 wraps to zero; a concrete
success increments the converted counter modulo 2 ^ 16; the empty traversal
leaves the converted counter at zero. -/
theorem counters_wrap_mod_u16_witness :
    (handle_error { ok_count := 0, err_count := 65535 } []).counters.err_count = 0 ∧
    (try_convert_entry exConv okWorld { ok_count := 0, err_count := 0 }
        exEntry).counters.ok_count = (0 + 1) % 65536 ∧
    ({ ok_count := 0, err_count := 0 } : Counters).ok_count =
      countDispatched [] % 65536 :=
  ⟨counters_wrap_mod_u16.2.1 { ok_count := 0, err_count := 65535 } [] rfl,
   counters_wrap_mod_u16.2.2.1 exConv okWorld { ok_count := 0, err_count := 0 }
     exEntry FileType.file (exPath.withExtension "opus".data) rfl rfl rfl (by decide),
   counters_wrap_mod_u16.2.2.2 exConv okWorld []
     { ok_count := 0, err_count := 0 } rfl⟩

end FfmpegConverter
